import Mathlib

/-!
Verification of the vocabulary-quiz session engine in `language_bot.py`.

The Python functions `compare_text`, `check_answer`, `choose_questions`,
`ask_question`, `start_quiz`, `check_response` and `end_quiz` are embedded
shallowly below.  Randomness (`random.shuffle`, `random.choice`) is modelled
by an explicit oracle record `QuizRand` carrying the outcomes of the draws;
exceptions (`KeyError`, `IndexError`) are modelled by an error field in the
step result; the in-place mutation of the global question store is modelled
by returning the updated store.
-/

namespace LanguageBot

/-- The characters of Python's `string.punctuation`:
`! " # $ % & ' ( ) * + , - . / : ; < = > ? @ [ \ ] ^ _ \x60 \x7b | \x7d ~`. -/
def pyPunct : List Char := "!\"#$%&\x27()*+,-./:;<=>?@[\\]^_\x60\x7b|\x7d~".data

/-- Model of `text.translate(str.maketrans('', '', string.punctuation))`:
removes every punctuation character from the string. -/
def removePunct (s : String) : String :=
  String.mk (s.data.filter (fun c => !(pyPunct.contains c)))

/-- One character of Python's `str.casefold` (character-wise Unicode case
folding).  The development only exercises the ASCII part of the table plus
U+00DF folding to "ss" as an exemplar of full (length-changing) folding;
characters outside the modelled part of the table fold to themselves. -/
def caseFoldChar (c : Char) : List Char :=
  if c.val = 0xDF then ['s', 's'] else [c.toLower]

/-- Model of Python `str.casefold`, applied character by character. -/
def caseFold (s : String) : String :=
  String.mk (s.data.flatMap caseFoldChar)

/-- The normalized form used by `compare_text`: punctuation removed
(`translate`), then case folded (`casefold`). -/
def normalize (s : String) : String := caseFold (removePunct s)

/-- Embedding of `compare_text(text1, text2)`: strip punctuation from both
strings and compare the casefolded results. -/
def compare_text (text1 text2 : String) : Bool :=
  normalize text1 == normalize text2

/-- Model of Python's `c in s` membership test for a single character. -/
def pyContains (s : String) (c : Char) : Bool := s.data.contains c

/-- Splitting a character list on a separator character, keeping empty
segments, exactly like Python's `str.split(sep)` with an explicit separator. -/
def splitOnChar (c : Char) : List Char → List (List Char)
  | [] => [[]]
  | x :: xs =>
    let rest := splitOnChar c xs
    if x = c then [] :: rest
    else
      match rest with
      | [] => [[x]]
      | r :: rs => (x :: r) :: rs

/-- Model of Python `s.split(';')`. -/
def pySplitSemi (s : String) : List String :=
  (splitOnChar ';' s.data).map String.mk

/-- Embedding of `check_answer(correct_answer, response)`: if the expected
answer contains the delimiter, accept the response when it matches any
alternative; otherwise compare directly. -/
def check_answer (correct_answer response : String) : Bool :=
  if pyContains correct_answer ';' then
    let correct_answers := pySplitSemi correct_answer
    correct_answers.any (fun alternative_answer => compare_text alternative_answer response)
  else
    compare_text correct_answer response

/-- The list of candidate alternatives `check_answer` compares against:
the split on the delimiter when present, otherwise the whole string. -/
def candidateAnswers (correct_answer : String) : List String :=
  if pyContains correct_answer ';' then pySplitSemi correct_answer
  else [correct_answer]

/-- A vocabulary item as stored in the TOML-loaded question dicts: the two
language fields, plus the three keys that `choose_questions` writes into the
dict (absent, i.e. `none`, until then). -/
structure VocabItem where
  japanese : String
  english : String
  question_type : Option String := none
  question_text : Option String := none
  answer_text : Option String := none
deriving Repr, DecidableEq

/-- The global `questions` dict loaded from `genki1.toml`: an insertion-ordered
mapping of quiz-set name to its list of items. -/
abbrev Store := List (String × List VocabItem)

/-- Model of `questions[name]` as a lookup (raising `KeyError` is modelled by
`none` at the call sites). -/
def lookupSet : Store → String → Option (List VocabItem)
  | [], _ => none
  | (k, v) :: rest, name => if k = name then some v else lookupSet rest name

/-- Replacing one set's item list in the store; models the fact that
`choose_questions` mutates `questions[name]` in place. -/
def updateSet : Store → String → List VocabItem → Store
  | [], _, _ => []
  | (k, v) :: rest, name, items =>
    if k = name then (k, items) :: rest else (k, v) :: updateSet rest name items

/-- Oracle for the randomness `choose_questions` consumes: the outcome of
`random.shuffle(question_set)`, the per-question outcome of
`random.choice(['japanese', 'english'])` (`true` for `'japanese'`), and the
per-question outcome of `random.choice(possible_questions)` as an index. -/
structure QuizRand where
  shuffled : List VocabItem
  pickJapanese : Nat → Bool
  variant : Nat → Nat

/-- `List.map` with the position of each element, structural so that closed
terms reduce. -/
def mapWithIndex (f : Nat → VocabItem → VocabItem) : Nat → List VocabItem → List VocabItem
  | _, [] => []
  | i, x :: xs => f i x :: mapWithIndex f (i + 1) xs

/-- The body of the `for` loop in `choose_questions`, for the question at
position `i` of the chosen batch: draw the direction, set
`question['question_type']`, pick `question['question_text']` (one variant at
random when the prompt side contains the delimiter), and set
`question['answer_text']` to the whole opposite side. -/
def assignFields (r : QuizRand) (i : Nat) (question : VocabItem) : VocabItem :=
  let question_type := if r.pickJapanese i then "japanese" else "english"
  let side := if r.pickJapanese i then question.japanese else question.english
  let question_text :=
    if pyContains side ';' then
      let possible_questions := pySplitSemi side
      possible_questions.getD (r.variant i % possible_questions.length) ""
    else side
  let answer_text := if r.pickJapanese i then question.english else question.japanese
  { question with
      question_type := some question_type
      question_text := some question_text
      answer_text := some answer_text }

/-- Embedding of `choose_questions(question_set, num_questions)`.
`random.shuffle` reorders `question_set` in place (outcome `r.shuffled`),
the first `num_questions` elements are taken and mutated by the loop, and the
list the store holds is that same shuffled list with its mutated prefix.
Returns `(chosen_questions, state of the stored list after the call)`. -/
def choose_questions (question_set : List VocabItem) (num_questions : Nat)
    (r : QuizRand) : List VocabItem × List VocabItem :=
  let shuffled := r.shuffled
  let chosen_questions := mapWithIndex (assignFields r) 0 (shuffled.take num_questions)
  (chosen_questions, chosen_questions ++ shuffled.drop num_questions)

/-- The per-user `context.user_data` dict: `QUIZ_NAME_KEY` (absent = `none`),
`QUESTIONS_KEY`, `QUESTION_NUM_KEY`, `NUM_CORRECT_KEY`. -/
structure UserData where
  quiz_name : Option String := none
  questions : List VocabItem := []
  question_num : Nat := 0
  correct : Nat := 0
deriving Repr, DecidableEq

/-- `NUM_QUESTIONS` from the source. -/
def NUM_QUESTIONS : Nat := 5

/-- Result of running one handler: the texts sent by `reply_text` before the
handler returned or raised, the state of the global store and of the user
data when it finished, and the uncaught exception if one was raised. -/
structure StepResult where
  msgs : List String
  store : Store
  ud : UserData
  err : Option String
deriving Repr, DecidableEq

/-- Embedding of `ask_question`: reply with
`user_data[QUESTIONS_KEY][user_data[QUESTION_NUM_KEY]]['question_text']`;
an out-of-range index raises `IndexError`, a missing key `KeyError`. -/
def ask_question (store : Store) (ud : UserData) : StepResult :=
  match ud.questions.get? ud.question_num with
  | none => ⟨[], store, ud, some "IndexError"⟩
  | some question =>
    match question.question_text with
    | none => ⟨[], store, ud, some "KeyError"⟩
    | some t => ⟨[t], store, ud, none⟩

/-- Embedding of `start_quiz(name, ...)`: `questions[name]` (raises `KeyError`
on an unknown name), `choose_questions`, initialize the four user-data keys,
announce the question count, then `ask_question`. -/
def start_quiz (name : String) (store : Store) (ud : UserData) (r : QuizRand) :
    StepResult :=
  match lookupSet store name with
  | none => ⟨[], store, ud, some "KeyError"⟩
  | some question_set =>
    let res := choose_questions question_set NUM_QUESTIONS r
    let chosen_questions := res.1
    let store2 := updateSet store name res.2
    let ud2 : UserData :=
      { quiz_name := some name, questions := chosen_questions
        question_num := 0, correct := 0 }
    let m1 := "I will now ask you " ++ toString chosen_questions.length ++ " questions."
    let aq := ask_question store2 ud2
    ⟨m1 :: aq.msgs, aq.store, aq.ud, aq.err⟩

/-- Embedding of `end_quiz`: report the score over
`len(user_data[QUESTIONS_KEY])`, invite a restart, and pop `QUIZ_NAME_KEY`. -/
def end_quiz (store : Store) (ud : UserData) : StepResult :=
  let m1 := "You scored " ++ toString ud.correct ++ " out of "
      ++ toString ud.questions.length ++ "."
  let m2 := "To try again, just /start."
  ⟨[m1, m2], store, { ud with quiz_name := none }, none⟩

/-- Embedding of `check_response`, the free-text message handler.  With no
active quiz the text is treated as a set name (`start_quiz`).  Otherwise the
current question is graded, feedback is sent, `question_num` is incremented,
and — exactly as in the source — the new `question_num` is compared against
`len(questions)` where `questions` is the GLOBAL set dict (its number of
keys, `store.length`), not the session batch. -/
def check_response (text : String) (store : Store) (ud : UserData)
    (r : QuizRand) : StepResult :=
  if ud.quiz_name.isNone then
    start_quiz text store ud r
  else
    match ud.questions.get? ud.question_num with
    | none => ⟨[], store, ud, some "IndexError"⟩
    | some question =>
      match question.answer_text with
      | none => ⟨[], store, ud, some "KeyError"⟩
      | some answer_text =>
        let is_correct := check_answer answer_text text
        let msgs1 :=
          if is_correct then
            if pyContains answer_text ';' then
              ["Correct!", "Do not forget that there are alternative answers!"]
            else ["Correct!"]
          else ["The correct answer was \"" ++ answer_text ++ "\"."]
        let ud1 := if is_correct then { ud with correct := ud.correct + 1 } else ud
        let ud2 := { ud1 with question_num := ud.question_num + 1 }
        if ud2.question_num = store.length then
          let eq := end_quiz store ud2
          ⟨msgs1 ++ eq.msgs, eq.store, eq.ud, eq.err⟩
        else
          let aq := ask_question store ud2
          ⟨msgs1 ++ aq.msgs, aq.store, aq.ud, aq.err⟩

example : check_answer "Hello!" "hello" = true := by decide
example : check_answer "No;Not at all" "no" = true := by decide
example : check_answer "No;Not at all" "Not at all" = true := by decide
example : check_answer "No;Not at all" "maybe" = false := by decide

/-- `mapWithIndex` preserves length. -/
theorem length_mapWithIndex (f : Nat → VocabItem → VocabItem) (i : Nat)
    (l : List VocabItem) : (mapWithIndex f i l).length = l.length := by
  induction l generalizing i with
  | nil => rfl
  | cons x xs ih => simp [mapWithIndex, ih]

/-- `ask_question` never touches the user data. -/
theorem ask_question_ud (store : Store) (ud : UserData) :
    (ask_question store ud).ud = ud := by
  unfold ask_question
  cases ud.questions.get? ud.question_num with
  | none => rfl
  | some q => cases h : q.question_text <;> simp [h]

/-- `compare_text` applies the same normalization to both arguments, so it is
symmetric. -/
theorem compare_text_comm (a b : String) : compare_text a b = compare_text b a := by
  unfold compare_text
  exact Bool.beq_comm

/-- `check_answer` is the disjunction of `compare_text` over the candidate
alternatives. -/
theorem check_answer_eq_any (e resp : String) :
    check_answer e resp
      = (candidateAnswers e).any (fun alt => compare_text alt resp) := by
  unfold check_answer candidateAnswers
  cases hd : pyContains e ';' <;> simp

/-- C3 counterexample: the delimiter `;` is itself a punctuation character, so
`"a;b"` and `"ab"` are equal after punctuation removal and case folding, yet
`check_answer "a;b" "ab"` splits the expected answer into the alternatives
`"a"` and `"b"` and rejects `"ab"`. -/
theorem check_answer_normalized_eq_cex :
    normalize "a;b" = normalize "ab" ∧ check_answer "a;b" "ab" = false := by
  decide

/-- C3 (amended): for every expected answer `a` that does not contain the
delimiter `;`, and every response `b` equal to `a` after punctuation removal
and case folding, `check_answer a b` is true. -/
theorem check_answer_of_normalized_eq (a b : String)
    (hd : pyContains a ';' = false) (h : normalize a = normalize b) :
    check_answer a b = true := by
  simp [check_answer, hd, compare_text, h]

/-- Witness for `check_answer_of_normalized_eq` at the spec's own example. -/
theorem check_answer_of_normalized_eq_witness :
    check_answer "Hello!" "hello" = true :=
  check_answer_of_normalized_eq "Hello!" "hello" (by decide) (by decide)

/-- C4: `compare_text` performs no trimming, so a leading or trailing space on
the response survives normalization and flips the verdict: `"hello"` matches
the expected answer `"hello"` but `"hello "` and `" hello"` do not. -/
theorem check_answer_whitespace_sensitive :
    check_answer "hello" "hello" = true
    ∧ check_answer "hello" "hello " = false
    ∧ check_answer "hello" " hello" = false := by
  decide

/-- C7 counterexample: the non-empty expected answer `"!"` normalizes to the
empty string, so the empty response matches it. -/
theorem check_answer_empty_response_cex :
    "!" ≠ "" ∧ check_answer "!" "" = true := by
  decide

/-- C7 (amended): the empty response is rejected whenever every candidate
alternative of the expected answer has a non-empty normalized form (in
particular whenever the expected answer does not normalize to empty). -/
theorem check_answer_empty_response (e : String)
    (h : ∀ alt ∈ candidateAnswers e, normalize alt ≠ "") :
    check_answer e "" = false := by
  rw [check_answer_eq_any, List.any_eq_false]
  intro alt hmem
  have h0 : normalize "" = "" := rfl
  simpa [compare_text, h0, beq_iff_eq] using h alt hmem

/-- Witness for `check_answer_empty_response` on a plain expected answer. -/
theorem check_answer_empty_response_witness :
    check_answer "abc" "" = false :=
  check_answer_empty_response "abc" (by decide)

/-- C9: when the expected answer contains the delimiter and splitting on it
yields an empty segment (leading or trailing `;`, or `;;`), every response
that normalizes to the empty string is judged correct. -/
theorem check_answer_empty_alternative (e resp : String)
    (hd : pyContains e ';' = true) (hmem : "" ∈ pySplitSemi e)
    (hr : normalize resp = "") :
    check_answer e resp = true := by
  unfold check_answer
  rw [hd, if_pos rfl]
  refine List.any_eq_true.2 ⟨"", hmem, ?_⟩
  have h0 : normalize "" = "" := rfl
  simp [compare_text, h0, hr]

/-- Witness for `check_answer_empty_alternative`: expected answer `";No"`,
response `"!"` (all punctuation, normalizes to empty). -/
theorem check_answer_empty_alternative_witness :
    check_answer ";No" "!" = true :=
  check_answer_empty_alternative ";No" "!" (by decide) (by decide) (by decide)

/-- C10: when neither string contains the delimiter, `check_answer` reduces on
both sides to `compare_text`, which is symmetric. -/
theorem check_answer_comm (a b : String)
    (ha : pyContains a ';' = false) (hb : pyContains b ';' = false) :
    check_answer a b = check_answer b a := by
  simp only [check_answer, ha, hb, Bool.false_eq_true, if_false]
  exact compare_text_comm a b

/-- Witness for `check_answer_comm`. -/
theorem check_answer_comm_witness :
    check_answer "dog" "Dog!" = check_answer "Dog!" "dog" :=
  check_answer_comm "dog" "Dog!" (by decide) (by decide)

/-- A vocabulary item as loaded from configuration (no derived fields yet). -/
def itemInu : VocabItem := { japanese := "inu", english := "dog" }

/-- A second loaded vocabulary item. -/
def itemNeko : VocabItem := { japanese := "neko", english := "cat" }

/-- A fixed randomness oracle: empty shuffle outcome, always `'japanese'`,
always the first variant. -/
def rand0 : QuizRand := ⟨[], fun _ => true, fun _ => 0⟩

/-- A randomness oracle whose shuffle outcome swaps `[itemInu, itemNeko]`. -/
def randSwap : QuizRand := ⟨[itemNeko, itemInu], fun _ => true, fun _ => 0⟩

/-- A question as it sits in a session batch after `choose_questions`:
prompted in Japanese, expecting `"dog"`. -/
def preparedQ : VocabItem :=
  { japanese := "inu", english := "dog", question_type := some "japanese"
    question_text := some "inu", answer_text := some "dog" }

/-- A five-question session batch. -/
def batch5 : List VocabItem := [preparedQ, preparedQ, preparedQ, preparedQ, preparedQ]

/-- C1: with a single configured set, `check_response` compares the new
position against `len(questions)` where `questions` is the global set dict
(one key), not the five-question session batch, so the quiz ends after the
first answer, reporting a score out of 5. -/
theorem check_response_ends_after_first_answer :
    batch5.length = 5
    ∧ check_response "wrong" [("set1", [itemInu])]
        ⟨some "set1", batch5, 0, 0⟩ rand0
      = ⟨["The correct answer was \"dog\".",
          "You scored 0 out of 5.",
          "To try again, just /start."],
         [("set1", [itemInu])], ⟨none, batch5, 1, 0⟩, none⟩ := by
  decide

/-- C2: a free-text message from a user with no active quiz whose text is not
a configured set name makes `start_quiz` evaluate `questions[name]` on a
missing key: the handler replies nothing and terminates abnormally with an
uncaught `KeyError`. -/
theorem check_response_unknown_set_raises :
    check_response "blah" [("Genki", [itemInu])] ⟨none, [], 0, 0⟩ rand0
      = ⟨[], [("Genki", [itemInu])], ⟨none, [], 0, 0⟩, some "KeyError"⟩ := by
  decide

/-- C5 counterexample: asked for `NUM_QUESTIONS = 5` questions from a set of
2 items, `choose_questions` does not fail — the slice silently truncates and
a batch of 2 is returned. -/
theorem choose_questions_no_insufficient_error :
    2 < NUM_QUESTIONS
    ∧ (choose_questions [itemInu, itemNeko] NUM_QUESTIONS randSwap).1.length = 2 := by
  decide

/-- C5 (amended): `choose_questions` takes the first `n` items of the shuffle
outcome (a permutation of the set); when `n` exceeds the set size it returns
every item — a batch of length `min n len` — instead of failing. -/
theorem choose_questions_batch_length (question_set : List VocabItem)
    (n : Nat) (r : QuizRand)
    (hp : List.Perm r.shuffled question_set) :
    (choose_questions question_set n r).1.length = min n question_set.length := by
  unfold choose_questions
  simp [length_mapWithIndex, List.length_take, hp.length_eq]

/-- Witness for `choose_questions_batch_length`: 5 questions requested from a
2-item set yield a batch of `min 5 2 = 2`. -/
theorem choose_questions_batch_length_witness :
    (choose_questions [itemInu, itemNeko] 5 randSwap).1.length = min 5 2 :=
  choose_questions_batch_length [itemInu, itemNeko] 5 randSwap (by decide)

/-- C6: `choose_questions` mutates the store: `random.shuffle` reorders
`questions[name]` in place and the loop writes `question_type`,
`question_text` and `answer_text` into the stored item dicts, so after the
call the stored list differs from the loaded one. -/
theorem choose_questions_mutates_store :
    (choose_questions [itemInu, itemNeko] NUM_QUESTIONS randSwap).2
      = [{ itemNeko with question_type := some "japanese", question_text := some "neko", answer_text := some "cat" },
         { itemInu with question_type := some "japanese", question_text := some "inu", answer_text := some "dog" }]
    ∧ (choose_questions [itemInu, itemNeko] NUM_QUESTIONS randSwap).2
      ≠ [itemInu, itemNeko] := by
  decide

/-- C8: on a mismatch the handler's first reply embeds the full expected
answer text, unsplit, and the running correct count is unchanged. -/
theorem check_response_mismatch_echo (store : Store) (ud : UserData)
    (text : String) (r : QuizRand) (nm : String) (question : VocabItem)
    (answer : String)
    (h1 : ud.quiz_name = some nm)
    (h2 : ud.questions.get? ud.question_num = some question)
    (h3 : question.answer_text = some answer)
    (h4 : check_answer answer text = false) :
    (check_response text store ud r).msgs.head?
        = some ("The correct answer was \"" ++ answer ++ "\".")
    ∧ (check_response text store ud r).ud.correct = ud.correct := by
  unfold check_response
  rw [h1, h2]
  simp only [Option.isNone_some, Bool.false_eq_true, if_false, h3, h4]
  split
  · simp [end_quiz]
  · simp [ask_question_ud]

/-- Witness for `check_response_mismatch_echo`. -/
theorem check_response_mismatch_echo_witness :
    (check_response "zzz" [("s", [])] ⟨some "s", [preparedQ], 0, 3⟩ rand0).msgs.head?
        = some ("The correct answer was \"" ++ "dog" ++ "\".")
    ∧ (check_response "zzz" [("s", [])] ⟨some "s", [preparedQ], 0, 3⟩ rand0).ud.correct
        = (⟨some "s", [preparedQ], 0, 3⟩ : UserData).correct :=
  check_response_mismatch_echo [("s", [])] ⟨some "s", [preparedQ], 0, 3⟩
    "zzz" rand0 "s" preparedQ "dog" rfl rfl rfl (by decide)

end LanguageBot
